import Mathlib

/-!
Shallow embedding of src/jsonrpc2/mixin.py (JSON RPC 2 mixin library):
the response classes, the ResourceResponseJSONEncoder, and the dispatch
pipeline RequestHandlerMixin.handle_request / _validate_request.

Conventions of the embedding:
* A decoded JSON value is `Json`; the Python value None (JSON null) is
  `Json.null`.  JSON numbers are modelled as integers (no claim involves
  fractional values).
* `json.loads` on the raw request body is modelled by its result: the
  argument of `handle_request` is `none` when decoding raises (undecodable
  text, or a non-string argument such as the Python None used in the test
  suite) and `some j` when the body decodes to the value `j`.
* Exceptions that the except clauses of `_validate_request` distinguish are
  the inductive `PyExc`; an exception that the code does not catch is
  reported as `Outcome.escaped`, modelling a failure propagating past the
  `handle_request` boundary.
* The handler object (`self`, an instance of a class extending
  RequestHandlerMixin) is `Handler`: the attribute names it adds on top of
  the mixin, the behaviour of invoking `getattr(self, m)(*params,
  **request_object)` (its `ops` field), the names of the protected
  companion object returned by `_get_protected_handler`, and the optional
  `_logger` attribute together with the behaviour of its `exception`
  method (which may itself raise).
-/

set_option maxHeartbeats 1000000

namespace Jsonrpc2

/-- JSON values as produced by simplejson.loads.  Python None is `null`. -/
inductive Json where
  | null
  | bool (b : Bool)
  | num (n : Int)
  | str (s : String)
  | arr (elems : List Json)
  | obj (fields : List (String × Json))

/-- Python exceptions, distinguished exactly as the except clauses of
`_validate_request` distinguish them: `TypeError`, a
`BaseJSONRPCException` carrying its `code` and `message` attributes,
`AttributeError` (raised by `.get` on a non-dict), and any other
exception. -/
inductive PyExc where
  | typeError
  | attributeError
  | jsonrpc (code : Int) (message : String)
  | other (tag : String)

/-- `dict.get(key)`: the value stored under `key`, `none` when absent
(parsed JSON dicts have distinct keys). -/
def dictGet (fields : List (String × Json)) (key : String) : Option Json :=
  match fields with
  | [] => none
  | (k, v) :: rest => if k = key then some v else dictGet rest key

-- corresponding spec version (module constant RPC_VERSION)
def RPC_VERSION : String := "2.0"

/-- The payload a BaseResourceResponse subclass stores: the five error
classes set the `error` attribute to a code and message dict, and
SuccessResponse sets the `result` attribute. -/
inductive RPayload where
  | result (value : Json)
  | error (code : Int) (message : String)

/-- A BaseResourceResponse instance: the `id` attribute (null when the
request identifier was absent) plus exactly the one payload attribute its
class assigns. -/
structure Response where
  id : Json
  payload : RPayload

/-- class InternalError: error code -32603, message "Internal error.". -/
def InternalError (request_id : Json) : Response :=
  ⟨request_id, .error (-32603) "Internal error."⟩

/-- class NonExistentMethodError: error code -32601, message
"Method not found.". -/
def NonExistentMethodError (request_id : Json) : Response :=
  ⟨request_id, .error (-32601) "Method not found."⟩

/-- class InvalidJSONError: error code -32700, message "Parse error.". -/
def InvalidJSONError (request_id : Json) : Response :=
  ⟨request_id, .error (-32700) "Parse error."⟩

/-- class invalidRequestObjecError (sic): error code -32600, message
"Invalid Request.". -/
def invalidRequestObjecError (request_id : Json) : Response :=
  ⟨request_id, .error (-32600) "Invalid Request."⟩

/-- class CustomException: error built from the `code` and `message`
attributes of a caught BaseJSONRPCException. -/
def CustomException (code : Int) (message : String) (request_id : Json) :
    Response :=
  ⟨request_id, .error code message⟩

/-- class SuccessResponse: the `result` attribute holds the value the
invoked method returned. -/
def SuccessResponse (result : Json) (request_id : Json) : Response :=
  ⟨request_id, .result result⟩

/-- What an invoked handler method produces when it returns: either a
plain value, or an already built SuccessResponse (the isinstance check in
`_validate_request` passes the latter through unchanged). -/
inductive OpRet where
  | plain (v : Json)
  | success (r : Response)

/-- The outcome of `method_invoked(*params, **request_object)` once the
argument unpacking succeeded: a returned value or a raised exception. -/
inductive OpResult where
  | ok (r : OpRet)
  | exc (e : PyExc)

/-- The handler object: an instance of a class extending
RequestHandlerMixin. `ownNames` are the attribute names `dir(self)`
exposes beyond those of the mixin class itself; `ops m args req` is the
outcome of `getattr(self, m)(*args, **req)`; `protectedNames` is
`dir(_get_protected_handler())`; `hasLogger` is `hasattr(self, "_logger")`
and `loggerExc` is the exception the `_logger.exception` call raises, if
any. -/
structure Handler where
  ownNames : List String
  ops : String → List Json → Json → OpResult
  protectedNames : List String
  hasLogger : Bool
  loggerExc : Option PyExc

/-- `dir(RequestHandlerMixin)` in Python 2.7: the dunder names of a plain
new-style class plus the three methods the mixin defines. -/
def mixinNames : List String :=
  ["__class__", "__delattr__", "__dict__", "__doc__", "__format__",
   "__getattribute__", "__hash__", "__init__", "__module__", "__new__",
   "__reduce__", "__reduce_ex__", "__repr__", "__setattr__", "__sizeof__",
   "__str__", "__subclasshook__", "__weakref__",
   "_get_protected_handler", "_validate_request", "handle_request"]

/-- `dir(self)`: the mixin names plus whatever the extending class adds
(membership is all the code tests, so ordering is irrelevant). -/
def dirSelf (h : Handler) : List String :=
  mixinNames ++ h.ownNames

/-- `protected_methods = dir(RequestHandlerMixin) + dir(protected_handler)`. -/
def protectedMethods (h : Handler) : List String :=
  mixinNames ++ h.protectedNames

/-- Unpacking `*params` at the call site: a list unpacks to its elements,
a string to its one-character substrings, a dict to its keys; None (absent
`params` or JSON null), numbers and booleans raise TypeError. -/
def unpackArgs : Option Json → Except PyExc (List Json)
  | some (.arr xs) => .ok xs
  | some (.str s) => .ok (s.toList.map fun c => .str (String.mk [c]))
  | some (.obj fs) => .ok (fs.map fun p => .str p.1)
  | _ => .error .typeError

/-- `request_id = request_object.get("id")`: the Python attribute is None
both when the key is absent and when it maps to JSON null. -/
def requestIdOf (fields : List (String × Json)) : Json :=
  (dictGet fields "id").getD .null

/-- The result of one dispatch: either a Response returned to the caller,
or an exception escaping the `handle_request` boundary; `loggerCalled`
records whether `_logger.exception` was invoked. -/
inductive Outcome where
  | resp (r : Response)
  | escaped (e : PyExc)

structure DispatchResult where
  outcome : Outcome
  loggerCalled : Bool

/-- The try block around `method_invoked(*params, **request_object)` and
its except clauses, applied to the invocation outcome.  TypeError maps to
invalidRequestObjecError, BaseJSONRPCException to CustomException, and
anything else to the catch-all: notify `_logger` when present (an
exception from the logger propagates, since the notification is not
itself protected) and return InternalError. -/
def classifyOutcome (h : Handler) (request_id : Json) :
    OpResult → DispatchResult
  | .ok (.success r) => ⟨.resp r, false⟩
  | .ok (.plain v) => ⟨.resp (SuccessResponse v request_id), false⟩
  | .exc .typeError => ⟨.resp (invalidRequestObjecError request_id), false⟩
  | .exc (.jsonrpc c msg) => ⟨.resp (CustomException c msg request_id), false⟩
  | .exc _ =>
    if h.hasLogger then
      match h.loggerExc with
      | some le => ⟨.escaped le, true⟩
      | none => ⟨.resp (InternalError request_id), true⟩
    else ⟨.resp (InternalError request_id), false⟩

/-- RequestHandlerMixin._validate_request.  `len(request_object) < 1`
raises TypeError on values without a length (None, numbers, booleans) and
that exception is not caught here; `.get` on a non-empty list or string
raises AttributeError, also uncaught.  On a dict: version check, then
method resolution against `dir(self)` and the protected names, then
invocation and outcome classification. -/
def _validate_request (h : Handler) (request_object : Json) :
    DispatchResult :=
  match request_object with
  | .obj fields =>
    if fields.length < 1 then ⟨.resp (InvalidJSONError .null), false⟩
    else
      match dictGet fields "jsonrpc" with
      | some (.str v) =>
        if v = RPC_VERSION then
          match dictGet fields "method" with
          | some (.str m) =>
            if m ∈ dirSelf h ∧ m ∉ protectedMethods h then
              match unpackArgs (dictGet fields "params") with
              | .error _ =>
                ⟨.resp (invalidRequestObjecError (requestIdOf fields)),
                  false⟩
              | .ok args =>
                classifyOutcome h (requestIdOf fields)
                  (h.ops m args (.obj fields))
            else ⟨.resp (NonExistentMethodError (requestIdOf fields)), false⟩
          | _ => ⟨.resp (NonExistentMethodError (requestIdOf fields)), false⟩
        else ⟨.resp (invalidRequestObjecError .null), false⟩
      | _ => ⟨.resp (invalidRequestObjecError .null), false⟩
  | .arr elems =>
    if elems.length < 1 then ⟨.resp (InvalidJSONError .null), false⟩
    else ⟨.escaped .attributeError, false⟩
  | .str s =>
    if s.length < 1 then ⟨.resp (InvalidJSONError .null), false⟩
    else ⟨.escaped .attributeError, false⟩
  | _ => ⟨.escaped .typeError, false⟩

/-- RequestHandlerMixin.handle_request: `json.loads` failure (modelled by
`none`) yields InvalidJSONError, otherwise the decoded value goes to
`_validate_request`. -/
def handle_request (h : Handler) (data : Option Json) : DispatchResult :=
  match data with
  | none => ⟨.resp (InvalidJSONError .null), false⟩
  | some request => _validate_request h request

/-- The structured value ResourceResponseJSONEncoder.default builds for a
BaseResourceResponse: `jsonrpc` is preset to RPC_VERSION, then every
public non-excluded attribute is copied; the response classes expose
exactly `id` and one of `error` / `result` (listed here in the sorted
order `dir` yields them). -/
def encodeFields (r : Response) : List (String × Json) :=
  match r.payload with
  | .error c m =>
    [("jsonrpc", .str RPC_VERSION),
     ("error", .obj [("code", .num c), ("message", .str m)]),
     ("id", r.id)]
  | .result v =>
    [("jsonrpc", .str RPC_VERSION), ("id", r.id), ("result", v)]

def encodeResponse (r : Response) : Json := .obj (encodeFields r)

/-- Field access on a decoded response (`json.loads(str(response)).get(k)`):
the text layer `json.dumps` / `json.loads` is the standard bijection
between these structured values and their serialisations, so decoding the
encoded text is field lookup on the structured value the encoder built. -/
def jget (j : Json) (key : String) : Option Json :=
  match j with
  | .obj fs => dictGet fs key
  | _ => none

/-- Exceptions that reach the catch-all clause: neither the argument-shape
TypeError nor a declared BaseJSONRPCException. -/
def isUndeclared : PyExc → Bool
  | .typeError => false
  | .jsonrpc _ _ => false
  | _ => true

/-- A bare RequestHandlerMixin instance (the test suite handler with no
extra methods, no protected companion, no logger). -/
def emptyHandler : Handler :=
  ⟨[], fun _ _ _ => .ok (.plain .null), [], false, none⟩

-- Sanity checks mirroring the repository test suite.
example :
    handle_request emptyHandler none =
      ⟨.resp ⟨.null, .error (-32700) "Parse error."⟩, false⟩ := rfl

example :
    handle_request emptyHandler (some (.obj [("hi", .num 1)])) =
      ⟨.resp ⟨.null, .error (-32600) "Invalid Request."⟩, false⟩ := rfl

example :
    handle_request emptyHandler
      (some (.obj [("jsonrpc", .str "2.0"), ("method", .str "update"),
        ("params", .arr [.num 1, .num 2, .num 3, .num 4, .num 5])])) =
      ⟨.resp ⟨.null, .error (-32601) "Method not found."⟩, false⟩ := rfl

example :
    handle_request emptyHandler
      (some (.obj [("jsonrpc", .str "2.0"),
        ("method", .str "handle_request"), ("params", .str "123")])) =
      ⟨.resp ⟨.null, .error (-32601) "Method not found."⟩, false⟩ := rfl

/-- The SimpleController of the test suite: echo returns its first
positional argument, custom_exception raises MyException (code 1),
internal_error raises a plain Exception. -/
def simpleController : Handler :=
  ⟨["custom_exception", "echo", "internal_error"],
   fun m args _ =>
     if m = "echo" then
       match args with
       | a :: _ => .ok (.plain a)
       | [] => .exc .typeError
     else if m = "custom_exception" then
       .exc (.jsonrpc 1 "My Custom Exception")
     else if m = "internal_error" then .exc (.other "Exception")
     else .exc .attributeError,
   [], false, none⟩

example :
    handle_request simpleController
      (some (.obj [("jsonrpc", .str "2.0"), ("method", .str "echo"),
        ("params", .arr [.str "HI"]), ("id", .num 4)])) =
      ⟨.resp ⟨.num 4, .result (.str "HI")⟩, false⟩ := rfl

example :
    handle_request simpleController
      (some (.obj [("jsonrpc", .str "2.0"),
        ("method", .str "custom_exception"), ("params", .arr []),
        ("id", .num 4)])) =
      ⟨.resp ⟨.num 4, .error 1 "My Custom Exception"⟩, false⟩ := rfl

example :
    handle_request simpleController
      (some (.obj [("jsonrpc", .str "2.0"),
        ("method", .str "internal_error"), ("params", .arr []),
        ("id", .num 4)])) =
      ⟨.resp ⟨.num 4, .error (-32603) "Internal error."⟩, false⟩ := rfl

/-- Dispatch helper: a request object that passes the version check and
resolves its method name against the handler (present in `dir(self)`,
absent from the protected names) with successfully unpacked arguments
reaches the invocation, and the dispatch result is the classification of
the invocation outcome. -/
theorem dispatch_invokes (h : Handler) (fs : List (String × Json))
    (m : String) (args : List Json)
    (hver : dictGet fs "jsonrpc" = some (.str "2.0"))
    (hm : dictGet fs "method" = some (.str m))
    (hin : m ∈ dirSelf h) (hout : m ∉ protectedMethods h)
    (hparams : unpackArgs (dictGet fs "params") = .ok args) :
    handle_request h (some (.obj fs)) =
      classifyOutcome h (requestIdOf fs) (h.ops m args (.obj fs)) := by
  have hlen : ¬ fs.length < 1 := by
    cases fs with
    | nil => simp [dictGet] at hver
    | cons a l => simp
  simp only [handle_request, _validate_request, hlen, if_false, hver, hm,
    RPC_VERSION, if_pos rfl, hparams]
  exact if_pos (And.intro hin hout)

/-- Classification of an undeclared exception when the logger is absent or
does not raise: the catch-all clause returns InternalError, and the logger
was notified exactly when it is present. -/
theorem classify_undeclared (h : Handler) (rid : Json) (e : PyExc)
    (he : isUndeclared e = true)
    (hlog : h.hasLogger = false ∨ h.loggerExc = none) :
    classifyOutcome h rid (.exc e) =
      ⟨.resp (InternalError rid), h.hasLogger⟩ := by
  cases e with
  | typeError => exact absurd he (by simp [isUndeclared])
  | jsonrpc c msg => exact absurd he (by simp [isUndeclared])
  | attributeError =>
    cases hb : h.hasLogger with
    | false => simp [classifyOutcome, hb]
    | true =>
      rcases hlog with hl | hl
      · rw [hb] at hl; cases hl
      · simp [classifyOutcome, hb, hl]
  | other t =>
    cases hb : h.hasLogger with
    | false => simp [classifyOutcome, hb]
    | true =>
      rcases hlog with hl | hl
      · rw [hb] at hl; cases hl
      · simp [classifyOutcome, hb, hl]

/-- Classification of an undeclared exception when the logger is present
and its notification raises `le`: the catch-all clause lets `le` escape. -/
theorem classify_logger_raises (h : Handler) (rid : Json) (e le : PyExc)
    (he : isUndeclared e = true) (hb : h.hasLogger = true)
    (hl : h.loggerExc = some le) :
    classifyOutcome h rid (.exc e) = ⟨.escaped le, true⟩ := by
  cases e with
  | typeError => exact absurd he (by simp [isUndeclared])
  | jsonrpc c msg => exact absurd he (by simp [isUndeclared])
  | attributeError => simp [classifyOutcome, hb, hl]
  | other t => simp [classifyOutcome, hb, hl]

/-- Claim C1 evaluated on the code: payloads that decode to non-object
values are not handled.  `len` on None, a number or a boolean raises
TypeError outside the try block of handle_request, and `.get` on a
non-empty string or list raises AttributeError, so the failure escapes the
handle_request boundary instead of producing a Response. -/
theorem C1_nonobject_decode_escapes :
    (handle_request emptyHandler (some .null)).outcome =
      .escaped .typeError ∧
    (handle_request emptyHandler (some (.num 5))).outcome =
      .escaped .typeError ∧
    (handle_request emptyHandler (some (.bool true))).outcome =
      .escaped .typeError ∧
    (handle_request emptyHandler (some (.str "abc"))).outcome =
      .escaped .attributeError ∧
    (handle_request emptyHandler (some (.arr [.num 1, .num 2]))).outcome =
      .escaped .attributeError :=
  ⟨rfl, rfl, rfl, rfl, rfl⟩

/-- Claim C2 evaluated on the code: the empty object decodes successfully
and is structurally invalid, but handle_request answers with
InvalidJSONError, that is code -32700 and message "Parse error.", not the
code -32600 the claim requires (the identifier is null as claimed). -/
theorem C2_empty_object_gets_parse_error :
    handle_request emptyHandler (some (.obj [])) =
      ⟨.resp ⟨.null, .error (-32700) "Parse error."⟩, false⟩ := rfl

/-- A handler exposing one method `noop` that returns a plain value for
any arguments it receives. -/
def noopHandler : Handler :=
  ⟨["noop"], fun _ _ _ => .ok (.plain (.str "done")), [], false, none⟩

/-- Claim C3 evaluated on the code: with `params` absent the unpacking
`*params` is `*None`, which raises TypeError inside the try block, so the
dispatch answers invalidRequestObjecError (code -32600) instead of
invoking the zero-argument operation and returning a Success variant. -/
theorem C3_absent_params_rejected :
    handle_request noopHandler
      (some (.obj [("jsonrpc", .str "2.0"), ("method", .str "noop"),
        ("id", .num 7)])) =
      ⟨.resp ⟨.num 7, .error (-32600) "Invalid Request."⟩, false⟩ := rfl

/-- Claim C4: a version-valid request whose method name lies in the guard
set (the mixin names together with the protected companion names), or is
absent from the names the handler exposes, is answered with error code
-32601 and the extracted identifier; the guard takes precedence even when
the handler also exposes the name. -/
theorem C4_guarded_or_unknown_method (h : Handler)
    (fs : List (String × Json)) (m : String)
    (hver : dictGet fs "jsonrpc" = some (.str "2.0"))
    (hm : dictGet fs "method" = some (.str m))
    (hguard : m ∈ protectedMethods h ∨ m ∉ dirSelf h) :
    handle_request h (some (.obj fs)) =
      ⟨.resp ⟨requestIdOf fs, .error (-32601) "Method not found."⟩,
        false⟩ := by
  have hlen : ¬ fs.length < 1 := by
    cases fs with
    | nil => simp [dictGet] at hver
    | cons a l => simp
  have hcond : ¬ (m ∈ dirSelf h ∧ m ∉ protectedMethods h) := by
    rcases hguard with hg | hg
    · exact fun hc => hc.2 hg
    · exact fun hc => hg hc.1
  simp only [handle_request, _validate_request, hlen, if_false, hver, hm,
    RPC_VERSION, if_pos rfl, if_neg hcond]
  rfl

/-- A handler that also defines the name handle_request itself. -/
def shadowHandler : Handler :=
  ⟨["handle_request"], fun _ _ _ => .ok (.plain .null), [], false, none⟩

/-- Witness for claim C4: a handler that itself exposes handle_request
still gets -32601 when a request names handle_request, because the name is
in the guard set. -/
theorem C4_witness :
    handle_request shadowHandler
      (some (.obj [("jsonrpc", .str "2.0"),
        ("method", .str "handle_request"), ("params", .str "123"),
        ("id", .num 4)])) =
      ⟨.resp ⟨.num 4, .error (-32601) "Method not found."⟩, false⟩ :=
  C4_guarded_or_unknown_method shadowHandler _ "handle_request" rfl rfl
    (Or.inl (by decide))

/-- Claim C5: a valid, resolvable request whose operation raises a
BaseJSONRPCException carrying code c and message msg is answered with the
Error variant built from exactly that code and message, under the
extracted identifier. -/
theorem C5_declared_failure_carried (h : Handler)
    (fs : List (String × Json)) (m : String) (args : List Json)
    (c : Int) (msg : String)
    (hver : dictGet fs "jsonrpc" = some (.str "2.0"))
    (hm : dictGet fs "method" = some (.str m))
    (hin : m ∈ dirSelf h) (hout : m ∉ protectedMethods h)
    (hparams : unpackArgs (dictGet fs "params") = .ok args)
    (hop : h.ops m args (.obj fs) = .exc (.jsonrpc c msg)) :
    handle_request h (some (.obj fs)) =
      ⟨.resp ⟨requestIdOf fs, .error c msg⟩, false⟩ := by
  rw [dispatch_invokes h fs m args hver hm hin hout hparams, hop]
  rfl

/-- Witness for claim C5: the custom_exception method of the test-suite
controller raises a declared failure with code 1, which is carried into
the response under the request identifier. -/
theorem C5_witness :
    handle_request simpleController
      (some (.obj [("jsonrpc", .str "2.0"),
        ("method", .str "custom_exception"), ("params", .arr []),
        ("id", .num 11)])) =
      ⟨.resp ⟨.num 11, .error 1 "My Custom Exception"⟩, false⟩ :=
  C5_declared_failure_carried simpleController _ "custom_exception" [] 1
    "My Custom Exception" rfl rfl (by decide) (by decide) rfl rfl

/-- A handler whose single method raises an undeclared exception while a
present logger itself raises when notified. -/
def brokenLoggerHandler : Handler :=
  ⟨["boomop"], fun _ _ _ => .exc (.other "RuntimeError"), [], true,
   some (.other "LoggerError")⟩

/-- Counterexample to claim C6 as stated: for this valid request whose
operation raises an undeclared failure, handle_request does not return the
-32603 Error variant, because the present logging collaborator raises when
notified and that failure escapes. -/
theorem C6_counterexample :
    (handle_request brokenLoggerHandler
      (some (.obj [("jsonrpc", .str "2.0"), ("method", .str "boomop"),
        ("params", .arr []), ("id", .num 9)]))).outcome ≠
      .resp ⟨.num 9, .error (-32603) "Internal error."⟩ := by
  intro hcontra
  have hrun : (handle_request brokenLoggerHandler
      (some (.obj [("jsonrpc", .str "2.0"), ("method", .str "boomop"),
        ("params", .arr []), ("id", .num 9)]))).outcome =
      .escaped (.other "LoggerError") := rfl
  rw [hrun] at hcontra
  cases hcontra

/-- Claim C6 as amended: a valid, resolvable request whose operation
raises an undeclared failure is answered with the Error variant carrying
code -32603, the fixed message "Internal error." and the extracted
identifier, provided the embedding object has no logging collaborator or
its collaborator does not raise when notified; the collaborator is
notified exactly when it is present. -/
theorem C6_internal_error (h : Handler) (fs : List (String × Json))
    (m : String) (args : List Json) (e : PyExc)
    (hver : dictGet fs "jsonrpc" = some (.str "2.0"))
    (hm : dictGet fs "method" = some (.str m))
    (hin : m ∈ dirSelf h) (hout : m ∉ protectedMethods h)
    (hparams : unpackArgs (dictGet fs "params") = .ok args)
    (he : isUndeclared e = true)
    (hop : h.ops m args (.obj fs) = .exc e)
    (hlog : h.hasLogger = false ∨ h.loggerExc = none) :
    handle_request h (some (.obj fs)) =
      ⟨.resp ⟨requestIdOf fs, .error (-32603) "Internal error."⟩,
        h.hasLogger⟩ := by
  rw [dispatch_invokes h fs m args hver hm hin hout hparams, hop,
    classify_undeclared h (requestIdOf fs) e he hlog]
  rfl

/-- Witness for the amended claim C6: the internal_error method of the
test-suite controller (which has no logger) yields the fixed -32603
response under the request identifier. -/
theorem C6_witness :
    handle_request simpleController
      (some (.obj [("jsonrpc", .str "2.0"),
        ("method", .str "internal_error"), ("params", .arr []),
        ("id", .num 12)])) =
      ⟨.resp ⟨.num 12, .error (-32603) "Internal error."⟩, false⟩ :=
  C6_internal_error simpleController _ "internal_error" []
    (.other "Exception") rfl rfl (by decide) (by decide) rfl rfl rfl
    (Or.inl rfl)

/-- Counterexample to claim C7 as stated: with a logging collaborator that
raises when notified, handle_request does not return the -32603 Error
Response for this valid request whose operation raises an unanticipated
failure. -/
theorem C7_counterexample :
    (handle_request brokenLoggerHandler
      (some (.obj [("jsonrpc", .str "2.0"), ("method", .str "boomop"),
        ("params", .arr [.num 1]), ("id", .num 4)]))).outcome ≠
      .resp ⟨.num 4, .error (-32603) "Internal error."⟩ := by
  intro hcontra
  have hrun : (handle_request brokenLoggerHandler
      (some (.obj [("jsonrpc", .str "2.0"), ("method", .str "boomop"),
        ("params", .arr [.num 1]), ("id", .num 4)]))).outcome =
      .escaped (.other "LoggerError") := rfl
  rw [hrun] at hcontra
  cases hcontra

/-- Claim C7 as amended: when the operation of a valid, resolvable request
raises an undeclared failure and the embedding object provides a logging
collaborator, the collaborator is notified; if the notification raises,
that failure propagates past handle_request and no Response is produced,
and only if the notification does not raise is the -32603 Error Response
returned. -/
theorem C7_logger_failure_propagates (h : Handler)
    (fs : List (String × Json)) (m : String) (args : List Json)
    (e : PyExc)
    (hver : dictGet fs "jsonrpc" = some (.str "2.0"))
    (hm : dictGet fs "method" = some (.str m))
    (hin : m ∈ dirSelf h) (hout : m ∉ protectedMethods h)
    (hparams : unpackArgs (dictGet fs "params") = .ok args)
    (he : isUndeclared e = true)
    (hop : h.ops m args (.obj fs) = .exc e)
    (hb : h.hasLogger = true) :
    (∀ le, h.loggerExc = some le →
      handle_request h (some (.obj fs)) = ⟨.escaped le, true⟩) ∧
    (h.loggerExc = none →
      handle_request h (some (.obj fs)) =
        ⟨.resp ⟨requestIdOf fs, .error (-32603) "Internal error."⟩,
          true⟩) := by
  constructor
  · intro le hl
    rw [dispatch_invokes h fs m args hver hm hin hout hparams, hop,
      classify_logger_raises h (requestIdOf fs) e le he hb hl]
  · intro hl
    rw [dispatch_invokes h fs m args hver hm hin hout hparams, hop,
      classify_undeclared h (requestIdOf fs) e he (Or.inr hl), hb]
    rfl

/-- Witness for the amended claim C7: with the raising logger the
collaborator failure escapes the handle_request boundary after the
notification. -/
theorem C7_witness :
    handle_request brokenLoggerHandler
      (some (.obj [("jsonrpc", .str "2.0"), ("method", .str "boomop"),
        ("params", .arr []), ("id", .num 5)])) =
      ⟨.escaped (.other "LoggerError"), true⟩ :=
  (C7_logger_failure_propagates brokenLoggerHandler
    [("jsonrpc", .str "2.0"), ("method", .str "boomop"),
      ("params", .arr []), ("id", .num 5)] "boomop" []
    (.other "RuntimeError") rfl rfl (by decide) (by decide) rfl rfl rfl
    rfl).1 (.other "LoggerError") rfl

/-- Claim C8: every Response the dispatch produces encodes to an object
carrying the protocol version tag "2.0", an id field, and exactly one of
the result and error fields. -/
theorem C8_exactly_one_payload_field (h : Handler) (data : Option Json)
    (r : Response) (hr : (handle_request h data).outcome = .resp r) :
    dictGet (encodeFields r) "jsonrpc" = some (.str "2.0") ∧
    (dictGet (encodeFields r) "id").isSome = true ∧
    ((dictGet (encodeFields r) "result").isSome = true ↔
      (dictGet (encodeFields r) "error").isSome = false) := by
  obtain ⟨i, p⟩ := r
  cases p <;> simp [encodeFields, dictGet, RPC_VERSION]

/-- Witness for claim C8 at the parse-error response produced for an
undecodable payload. -/
theorem C8_witness :
    dictGet (encodeFields ⟨.null, .error (-32700) "Parse error."⟩)
      "jsonrpc" = some (.str "2.0") ∧
    (dictGet (encodeFields ⟨.null, .error (-32700) "Parse error."⟩)
      "id").isSome = true ∧
    ((dictGet (encodeFields ⟨.null, .error (-32700) "Parse error."⟩)
      "result").isSome = true ↔
      (dictGet (encodeFields ⟨.null, .error (-32700) "Parse error."⟩)
        "error").isSome = false) :=
  C8_exactly_one_payload_field emptyHandler none
    ⟨.null, .error (-32700) "Parse error."⟩ rfl

/-- Claim C9: encoding a Response and reading the encoded form back
reproduces the identifier and the result-or-error payload unchanged (the
text layer is the standard JSON serialisation of the structured value the
encoder builds, so decoding is field lookup on that value). -/
theorem C9_roundtrip (r : Response) :
    jget (encodeResponse r) "id" = some r.id ∧
    (match r.payload with
     | .result v =>
        jget (encodeResponse r) "result" = some v ∧
        jget (encodeResponse r) "error" = none
     | .error c msg =>
        jget (encodeResponse r) "error" =
          some (.obj [("code", .num c), ("message", .str msg)]) ∧
        jget (encodeResponse r) "result" = none) := by
  obtain ⟨i, p⟩ := r
  cases p <;> simp [encodeResponse, encodeFields, jget, dictGet]

/-- Claim C10: any TypeError raised during the invocation of a resolved
operation, wherever it originates, is caught by the first except clause
and answered with error code -32600 and the extracted identifier; the
logging collaborator is never notified and -32603 is never produced. -/
theorem C10_typeerror_maps_to_invalid_request (h : Handler)
    (fs : List (String × Json)) (m : String) (args : List Json)
    (hver : dictGet fs "jsonrpc" = some (.str "2.0"))
    (hm : dictGet fs "method" = some (.str m))
    (hin : m ∈ dirSelf h) (hout : m ∉ protectedMethods h)
    (hparams : unpackArgs (dictGet fs "params") = .ok args)
    (hop : h.ops m args (.obj fs) = .exc .typeError) :
    handle_request h (some (.obj fs)) =
      ⟨.resp ⟨requestIdOf fs, .error (-32600) "Invalid Request."⟩,
        false⟩ := by
  rw [dispatch_invokes h fs m args hver hm hin hout hparams, hop]
  rfl

/-- Witness for claim C10: calling echo with an empty argument list makes
the method body raise TypeError, which is answered with -32600 under the
request identifier and without notifying any logger. -/
theorem C10_witness :
    handle_request simpleController
      (some (.obj [("jsonrpc", .str "2.0"), ("method", .str "echo"),
        ("params", .arr []), ("id", .num 8)])) =
      ⟨.resp ⟨.num 8, .error (-32600) "Invalid Request."⟩, false⟩ :=
  C10_typeerror_maps_to_invalid_request simpleController _ "echo" []
    rfl rfl (by decide) (by decide) rfl rfl

end Jsonrpc2
